import Mathlib

/-!
Verification development for the Pulex Bucket analysis dashboard
(`src/app.py`).  The pipeline under study: a date-range/granularity
selection is formatted into `YYYYMMDD` partition keys (app.py lines
68-74), two BigQuery aggregation queries fetch search-volume and
product-view time series (lines 104-207), a Google Search Console
export loader reads three CSV files per property with an encoding
fallback (lines 219-247), a merge step unions the two properties'
tables (lines 255-268), and top-10 ranking tables are displayed
(lines 288-336).  Results are cached with `st.cache_data(ttl=3600)`.

All text is modelled as lists of Unicode code points (`List Nat`), and
files as lists of bytes, so that every definition is executable and
every concrete scenario can be settled by `decide` or `rfl`.
-/

/-- Code points of a Lean string literal, used to embed the Python/SQL
string literals of `app.py` (all of them are ASCII). -/
def strLit (s : String) : List Nat :=
  s.data.map Char.toNat

/-- Lexicographic string comparison `a <= b` on code-point lists.  This is
Python's `str` comparison and BigQuery's string comparison, used by the
`_TABLE_SUFFIX BETWEEN` partition filter (app.py lines 115, 176). -/
def lexLeB : List Nat → List Nat → Bool
  | [], _ => true
  | _ :: _, [] => false
  | a :: as, b :: bs => a < b || (a == b && lexLeB as bs)

/-- Substring test: models SQL `LIKE` with a pattern of the form
`'%needle%'` (app.py lines 114, 169-174). -/
def containsSub (hay needle : List Nat) : Bool :=
  hay.tails.any (fun t => needle.isPrefixOf t)

/-- ASCII lower-casing of one code point; models SQL `LOWER` on the ASCII
item names and search terms that appear in the queries. -/
def asciiLower (c : Nat) : Nat :=
  if 65 ≤ c ∧ c ≤ 90 then c + 32 else c

/-- Lower-case a code-point list (SQL `LOWER(...)`, app.py lines 114, 169). -/
def lowerCodes (l : List Nat) : List Nat :=
  l.map asciiLower

/-- Whitespace predicate used by Python's `str.strip` (pandas
`df.columns.str.strip()`, app.py line 231). -/
def isWS (c : Nat) : Bool :=
  c == 9 || c == 10 || c == 11 || c == 12 || c == 13 || c == 32

/-- Python `str.strip()`: drop leading and trailing whitespace.  Models the
header normalization `df.columns.str.strip()` at app.py line 231. -/
def stripWS (l : List Nat) : List Nat :=
  ((l.dropWhile isWS).reverse.dropWhile isWS).reverse

/-- A code-point list with no leading and no trailing whitespace. -/
def noEdgeWS (l : List Nat) : Bool :=
  (l.head?.all fun c => !isWS c) && (l.getLast?.all fun c => !isWS c)

/-- Big-endian base-10 digits of `n`, exactly `k` of them (the low `k`
decimal digits, high first).  Building block of the `%Y%m%d` format. -/
def digitsBE : Nat → Nat → List Nat
  | 0, _ => []
  | k + 1, n => n / 10 ^ k :: digitsBE k (n % 10 ^ k)

/-- A Python `datetime.date`, as produced by the Streamlit date picker
(app.py lines 47-52). -/
structure PyDate where
  year : Nat
  month : Nat
  day : Nat
deriving DecidableEq

/-- Python date ordering `a < b` (lexicographic on year, month, day). -/
def dateLtP (a b : PyDate) : Prop :=
  a.year < b.year ∨
    (a.year = b.year ∧
      (a.month < b.month ∨ (a.month = b.month ∧ a.day < b.day)))

instance : DecidableRel dateLtP := fun a b => by
  unfold dateLtP; infer_instance

/-- Python date ordering `a <= b`. -/
def dateLeP (a b : PyDate) : Prop :=
  dateLtP a b ∨ a = b

instance : DecidableRel dateLeP := fun a b => by
  unfold dateLeP; infer_instance

/-- A date that the sidebar picker can return: calendar-plausible fields
inside the configured bounds `min_value = 2023-01-01`,
`max_value = 2026-12-31` (app.py lines 50-51). -/
def selectableDate (d : PyDate) : Prop :=
  dateLeP ⟨2023, 1, 1⟩ d ∧ dateLeP d ⟨2026, 12, 31⟩ ∧
    1 ≤ d.month ∧ d.month ≤ 12 ∧ 1 ≤ d.day ∧ d.day ≤ 31

instance : DecidablePred selectableDate := fun d => by
  unfold selectableDate; infer_instance

/-- The numeric value `YYYYMMDD` of a date. -/
def dateKey (d : PyDate) : Nat :=
  d.year * 10000 + d.month * 100 + d.day

/-- Python `date.strftime('%Y%m%d')` (app.py lines 70-71), as the ASCII
code points of the produced string: four year digits, two zero-padded
month digits, two zero-padded day digits. -/
def strftimeYmd (d : PyDate) : List Nat :=
  (digitsBE 4 d.year ++ digitsBE 2 d.month ++ digitsBE 2 d.day).map (· + 48)

theorem digitsBE_length (k n : Nat) : (digitsBE k n).length = k := by
  induction k generalizing n with
  | zero => rfl
  | succ k ih => simp [digitsBE, ih]

theorem digitsBE_lt_ten {k n : Nat} (hn : n < 10 ^ k) :
    ∀ x ∈ digitsBE k n, x < 10 := by
  induction k generalizing n with
  | zero => intro x hx; simp [digitsBE] at hx
  | succ k ih =>
    intro x hx
    simp only [digitsBE, List.mem_cons] at hx
    rcases hx with h | h
    · subst h
      apply Nat.div_lt_of_lt_mul
      calc n < 10 ^ (k + 1) := hn
      _ = 10 ^ k * 10 := by ring
    · exact ih (Nat.mod_lt _ (by positivity)) x h

theorem digitsBE_append {j k a b : Nat} (hb : b < 10 ^ k) (ha : a < 10 ^ j) :
    digitsBE (j + k) (a * 10 ^ k + b) = digitsBE j a ++ digitsBE k b := by
  induction j generalizing a with
  | zero =>
    have : a = 0 := by simpa using ha
    subst this; simp [digitsBE]
  | succ j ih =>
    have hrlt : a % 10 ^ j < 10 ^ j := Nat.mod_lt _ (by positivity)
    have hsplit : a * 10 ^ k + b
        = ((a % 10 ^ j) * 10 ^ k + b) + (a / 10 ^ j) * 10 ^ (j + k) := by
      conv_lhs =>
        rw [show a = 10 ^ j * (a / 10 ^ j) + a % 10 ^ j from
            (Nat.div_add_mod a (10 ^ j)).symm]
      ring
    have hlowlt : (a % 10 ^ j) * 10 ^ k + b < 10 ^ (j + k) := by
      have h1 : (a % 10 ^ j) * 10 ^ k + b < (a % 10 ^ j + 1) * 10 ^ k := by
        have := Nat.add_lt_add_left hb ((a % 10 ^ j) * 10 ^ k)
        calc (a % 10 ^ j) * 10 ^ k + b < (a % 10 ^ j) * 10 ^ k + 10 ^ k := this
        _ = (a % 10 ^ j + 1) * 10 ^ k := by ring
      have h3 : (a % 10 ^ j + 1) * 10 ^ k ≤ 10 ^ j * 10 ^ k :=
        Nat.mul_le_mul_right _ hrlt
      calc (a % 10 ^ j) * 10 ^ k + b < (a % 10 ^ j + 1) * 10 ^ k := h1
      _ ≤ 10 ^ j * 10 ^ k := h3
      _ = 10 ^ (j + k) := by rw [← pow_add]
    have hpos : (0 : Nat) < 10 ^ (j + k) := by positivity
    have hdiv : (a * 10 ^ k + b) / 10 ^ (j + k) = a / 10 ^ j := by
      rw [hsplit, Nat.add_mul_div_right _ _ hpos, Nat.div_eq_of_lt hlowlt, Nat.zero_add]
    have hmod : (a * 10 ^ k + b) % 10 ^ (j + k) = (a % 10 ^ j) * 10 ^ k + b := by
      rw [hsplit, Nat.add_mul_mod_self_right, Nat.mod_eq_of_lt hlowlt]
    have hidx : j + 1 + k = (j + k) + 1 := by omega
    rw [hidx]
    show (a * 10 ^ k + b) / 10 ^ (j + k)
        :: digitsBE (j + k) ((a * 10 ^ k + b) % 10 ^ (j + k))
        = digitsBE (j + 1) a ++ digitsBE k b
    rw [hdiv, hmod, ih hrlt]
    simp [digitsBE]

theorem lexLeB_refl (l : List Nat) : lexLeB l l = true := by
  induction l with
  | nil => rfl
  | cons a as ih => simp [lexLeB, ih]

theorem lexLeB_digitsBE {k n m : Nat} (hnm : n ≤ m) (hm : m < 10 ^ k) :
    lexLeB (digitsBE k n) (digitsBE k m) = true := by
  induction k generalizing n m with
  | zero => rfl
  | succ k ih =>
    have hdle : n / 10 ^ k ≤ m / 10 ^ k := Nat.div_le_div_right hnm
    simp only [digitsBE, lexLeB]
    rcases Nat.lt_or_ge (n / 10 ^ k) (m / 10 ^ k) with hlt | hge
    · simp [hlt]
    · have heq : n / 10 ^ k = m / 10 ^ k := le_antisymm hdle hge
      have hmlt : m % 10 ^ k < 10 ^ k := Nat.mod_lt _ (by positivity)
      have hnle : n % 10 ^ k ≤ m % 10 ^ k := by
        have h1 := Nat.div_add_mod n (10 ^ k)
        have h2 := Nat.div_add_mod m (10 ^ k)
        rw [heq] at h1
        omega
      rw [heq]
      simp [ih hnle hmlt]

theorem lexLeB_map_add48 {l1 l2 : List Nat} (h : lexLeB l1 l2 = true) :
    lexLeB (l1.map (· + 48)) (l2.map (· + 48)) = true := by
  induction l1 generalizing l2 with
  | nil => simp [lexLeB]
  | cons a as ih =>
    cases l2 with
    | nil => simp [lexLeB] at h
    | cons b bs =>
      simp only [lexLeB, List.map, Bool.or_eq_true, Bool.and_eq_true,
        decide_eq_true_eq, beq_iff_eq] at h ⊢
      rcases h with h | ⟨hab, hrec⟩
      · left; omega
      · right; exact ⟨by omega, ih hrec⟩

theorem strftimeYmd_eq_digits (d : PyDate) (hy : d.year < 10000)
    (hm : d.month < 100) (hd : d.day < 100) :
    strftimeYmd d = (digitsBE 8 (dateKey d)).map (· + 48) := by
  have hinner : d.month * 10 ^ 2 + d.day < 10 ^ 4 := by norm_num; omega
  have h1 : digitsBE (2 + 2) (d.month * 10 ^ 2 + d.day)
      = digitsBE 2 d.month ++ digitsBE 2 d.day :=
    digitsBE_append (by norm_num; omega) (by norm_num; omega)
  have h2 : digitsBE (4 + 4) (d.year * 10 ^ 4 + (d.month * 10 ^ 2 + d.day))
      = digitsBE 4 d.year ++ digitsBE 4 (d.month * 10 ^ 2 + d.day) :=
    digitsBE_append hinner (by norm_num; omega)
  have hkey : dateKey d = d.year * 10 ^ 4 + (d.month * 10 ^ 2 + d.day) := by
    unfold dateKey; ring
  unfold strftimeYmd
  rw [hkey, show (8 : Nat) = 4 + 4 from rfl, h2,
    show (4 : Nat) = 2 + 2 from rfl, h1]
  simp

theorem dateLeP_key_le {a b : PyDate} (hma : a.month ≤ 99) (hda : a.day ≤ 99)
    (h : dateLeP a b) : dateKey a ≤ dateKey b := by
  rcases h with h | h
  · unfold dateLtP at h
    unfold dateKey
    omega
  · subst h; exact le_refl _

/-- C1: for every date-range selection with start <= end, both endpoints
inside the picker bounds [2023-01-01, 2026-12-31], the two partition keys
produced by `strftime('%Y%m%d')` (app.py lines 70-71) are exactly eight
ASCII decimal digits, and the start key is <= the end key under
string-lexicographic comparison. -/
theorem partitionRange_keys_valid (s e : PyDate)
    (hs : selectableDate s) (he : selectableDate e) (hse : dateLeP s e) :
    ((strftimeYmd s).length = 8 ∧ ∀ c ∈ strftimeYmd s, 48 ≤ c ∧ c ≤ 57) ∧
    ((strftimeYmd e).length = 8 ∧ ∀ c ∈ strftimeYmd e, 48 ≤ c ∧ c ≤ 57) ∧
    lexLeB (strftimeYmd s) (strftimeYmd e) = true := by
  obtain ⟨hs1, hs2, hsm1, hsm2, hsd1, hsd2⟩ := hs
  obtain ⟨he1, he2, hem1, hem2, hed1, hed2⟩ := he
  have hks1 := dateLeP_key_le (by decide) (by decide) hs1
  have hks2 := dateLeP_key_le (by omega) (by omega) hs2
  have hke1 := dateLeP_key_le (by decide) (by decide) he1
  have hke2 := dateLeP_key_le (by omega) (by omega) he2
  have hkey1 : dateKey (⟨2023, 1, 1⟩ : PyDate) = 20230101 := rfl
  have hkey2 : dateKey (⟨2026, 12, 31⟩ : PyDate) = 20261231 := rfl
  simp only [hkey1, hkey2] at hks1 hks2 hke1 hke2
  have hsy : s.year < 10000 := by unfold dateKey at hks1 hks2; omega
  have hey : e.year < 10000 := by unfold dateKey at hke1 hke2; omega
  have hskey : dateKey s < 10 ^ 8 := by unfold dateKey at *; norm_num; omega
  have hekey : dateKey e < 10 ^ 8 := by unfold dateKey at *; norm_num; omega
  have heqs := strftimeYmd_eq_digits s hsy (by omega) (by omega)
  have heqe := strftimeYmd_eq_digits e hey (by omega) (by omega)
  refine ⟨⟨?_, ?_⟩, ⟨?_, ?_⟩, ?_⟩
  · simp [strftimeYmd, digitsBE_length]
  · intro c hc
    rw [heqs] at hc
    obtain ⟨x, hx, hxc⟩ := List.mem_map.mp hc
    have := digitsBE_lt_ten hskey x hx
    omega
  · simp [strftimeYmd, digitsBE_length]
  · intro c hc
    rw [heqe] at hc
    obtain ⟨x, hx, hxc⟩ := List.mem_map.mp hc
    have := digitsBE_lt_ten hekey x hx
    omega
  · rw [heqs, heqe]
    exact lexLeB_map_add48
      (lexLeB_digitsBE (dateLeP_key_le (by omega) (by omega) hse) hekey)

/-- Witness for C1 at the default selection 2024-01-01 .. 2026-02-01
(app.py line 49). -/
theorem partitionRange_keys_valid_witness :
    ((strftimeYmd ⟨2024, 1, 1⟩).length = 8 ∧
      ∀ c ∈ strftimeYmd ⟨2024, 1, 1⟩, 48 ≤ c ∧ c ≤ 57) ∧
    ((strftimeYmd ⟨2026, 2, 1⟩).length = 8 ∧
      ∀ c ∈ strftimeYmd ⟨2026, 2, 1⟩, 48 ≤ c ∧ c ≤ 57) ∧
    lexLeB (strftimeYmd ⟨2024, 1, 1⟩) (strftimeYmd ⟨2026, 2, 1⟩) = true :=
  partitionRange_keys_valid ⟨2024, 1, 1⟩ ⟨2026, 2, 1⟩ (by decide) (by decide)
    (by decide)

/-- Days since 0000-03-01 in the proleptic Gregorian calendar (Hinnant's
civil-from-days construction); used to embed BigQuery date arithmetic. -/
def dateToDays (d : PyDate) : Nat :=
  let yy := if d.month ≤ 2 then d.year - 1 else d.year
  let era := yy / 400
  let yoe := yy % 400
  let mp := (d.month + 9) % 12
  let doy := (153 * mp + 2) / 5 + d.day - 1
  let doe := yoe * 365 + yoe / 4 - yoe / 100 + doy
  era * 146097 + doe

/-- Inverse of `dateToDays` (Hinnant's days-from-civil construction). -/
def daysToDate (z : Nat) : PyDate :=
  let era := z / 146097
  let doe := z % 146097
  let yoe := (doe - doe / 1460 + doe / 36524 - doe / 146096) / 365
  let y := yoe + era * 400
  let doy := doe - (365 * yoe + yoe / 4 - yoe / 100)
  let mp := (5 * doy + 2) / 153
  let dd := doy - (153 * mp + 2) / 5 + 1
  let m := if mp < 10 then mp + 3 else mp - 9
  ⟨if m ≤ 2 then y + 1 else y, m, dd⟩

/-- Day of week with 0 = Sunday (0000-03-01 is a Wednesday). -/
def dayOfWeek (z : Nat) : Nat :=
  (z + 3) % 7

/-- The bucketing unit interpolated into `DATE_TRUNC` via `time_trunc_map`
(app.py lines 62-66). -/
inductive TruncUnit
  | WEEK
  | MONTH
deriving DecidableEq

/-- BigQuery `DATE_TRUNC(date, WEEK | MONTH)` (app.py lines 108, 161):
MONTH truncates to the first of the month, WEEK to the preceding Sunday
(BigQuery's default week start). -/
def dateTrunc : TruncUnit → PyDate → PyDate
  | TruncUnit.MONTH, d => ⟨d.year, d.month, 1⟩
  | TruncUnit.WEEK, d =>
    let z := dateToDays d
    daysToDate (z - dayOfWeek z)

/-- Decimal digit value of an ASCII code point. -/
def digitVal (c : Nat) : Option Nat :=
  if 48 ≤ c ∧ c ≤ 57 then some (c - 48) else none

/-- BigQuery `PARSE_DATE('%Y%m%d', event_date)` (app.py lines 108, 161):
eight ASCII digits to a date; anything else is a query runtime error,
modelled as `none`. -/
def parseYmd8 (l : List Nat) : Option PyDate :=
  match l.mapM digitVal with
  | some [a, b, c, d, e, f, g, h] =>
    let y := a * 1000 + b * 100 + c * 10 + d
    let m := e * 10 + f
    let dd := g * 10 + h
    if 1 ≤ m ∧ m ≤ 12 ∧ 1 ≤ dd ∧ dd ≤ 31 then some ⟨y, m, dd⟩ else none
  | _ => none

/-- One element of a GA4 event's repeated `items` record. -/
structure GaItem where
  item_name : List Nat
deriving DecidableEq

/-- A raw event row of `events_*`.  In the GA4 BigQuery export the daily
table suffix `_TABLE_SUFFIX` equals the event's `event_date` string, so a
single field serves as both the partition key and the `PARSE_DATE`
argument. -/
structure GaEvent where
  event_date : List Nat
  event_name : List Nat
  params : List (List Nat × List Nat)
  items : List GaItem
deriving DecidableEq

/-- The partition-range condition
`_TABLE_SUFFIX BETWEEN '{start}' AND '{end}'` (app.py lines 115, 176):
inclusive, string-lexicographic on both ends. -/
def suffixBetween (startS endS suffix : List Nat) : Bool :=
  lexLeB startS suffix && lexLeB suffix endS

/-- The search-term condition of the search-volume query (app.py line 114):
extract the `search_term` event parameter and test
`LOWER(...) LIKE '%pulex bucket%'`; a missing parameter gives SQL `NULL`,
which the `LIKE` filters out. -/
def searchTermFilter (e : GaEvent) : Bool :=
  match e.params.lookup (strLit "search_term") with
  | some v => containsSub (lowerCodes v) (strLit "pulex bucket")
  | none => false

/-- The item-name condition of the product-views query (app.py lines
169-175): `LOWER(item.item_name) LIKE '%pulex bucket%'` (case-insensitive)
AND one of four case-sensitive color patterns. -/
def itemNameFilter (name : List Nat) : Bool :=
  containsSub (lowerCodes name) (strLit "pulex bucket")
  && (containsSub name (strLit "Red")
      || containsSub name (strLit "Blue")
      || containsSub name (strLit "Green")
      || containsSub name (strLit "Gray"))

/-- The `ORDER BY date_period ASC` contract of the search query
(app.py lines 118-119). -/
def searchRowLe (a b : PyDate × Nat) : Prop :=
  dateLeP a.1 b.1

instance : DecidableRel searchRowLe := fun a b => by
  unfold searchRowLe; infer_instance

/-- The `ORDER BY 1 ASC, 3 DESC` contract of the product-views query
(app.py line 178): period ascending, then view count descending. -/
def prodRowLe (a b : PyDate × List Nat × Nat) : Prop :=
  dateLtP a.1 b.1 ∨ (a.1 = b.1 ∧ b.2.2 ≤ a.2.2)

instance : DecidableRel prodRowLe := fun a b => by
  unfold prodRowLe; infer_instance

instance : IsTotal (PyDate × Nat) searchRowLe := by
  constructor
  intro a b
  obtain ⟨⟨ay, am, ad⟩, av⟩ := a
  obtain ⟨⟨by_, bm, bd⟩, bv⟩ := b
  simp [searchRowLe, dateLeP, dateLtP, PyDate.mk.injEq]
  omega

instance : IsTrans (PyDate × Nat) searchRowLe := by
  constructor
  intro a b c hab hbc
  obtain ⟨⟨ay, am, ad⟩, av⟩ := a
  obtain ⟨⟨by_, bm, bd⟩, bv⟩ := b
  obtain ⟨⟨cy, cm, cd⟩, cv⟩ := c
  simp [searchRowLe, dateLeP, dateLtP, PyDate.mk.injEq] at hab hbc ⊢
  omega

instance : IsTotal (PyDate × List Nat × Nat) prodRowLe := by
  constructor
  intro a b
  obtain ⟨⟨ay, am, ad⟩, an, av⟩ := a
  obtain ⟨⟨by_, bm, bd⟩, bn, bv⟩ := b
  simp [prodRowLe, dateLtP, PyDate.mk.injEq]
  omega

instance : IsTrans (PyDate × List Nat × Nat) prodRowLe := by
  constructor
  intro a b c hab hbc
  obtain ⟨⟨ay, am, ad⟩, an, av⟩ := a
  obtain ⟨⟨by_, bm, bd⟩, bn, bv⟩ := b
  obtain ⟨⟨cy, cm, cd⟩, cn, cv⟩ := c
  simp [prodRowLe, dateLtP, PyDate.mk.injEq] at hab hbc ⊢
  omega

/-- The search-volume query `load_search_data` (app.py lines 104-123):
filter `view_search_results` events on the search-term pattern and the
partition range, group by the truncated event date, count, order by
period ascending.  A `PARSE_DATE` failure is a BigQuery runtime error,
modelled as `Except.error`. -/
def load_search_data (events : List GaEvent) (startS endS : List Nat)
    (tr : TruncUnit) : Except String (List (PyDate × Nat)) :=
  match (events.filter (fun e =>
      e.event_name == strLit "view_search_results"
      && searchTermFilter e
      && suffixBetween startS endS e.event_date)).mapM
    (fun e => (parseYmd8 e.event_date).map (dateTrunc tr)) with
  | none => Except.error "PARSE_DATE failed on event_date"
  | some keys =>
    Except.ok (List.insertionSort searchRowLe
      (keys.dedup.map (fun k => (k, keys.count k))))

/-- The product-views query `load_product_data` (app.py lines 157-182):
unnest `items` of `view_item` events in the partition range, filter item
names on the phrase and color patterns, group by (truncated date,
item name), count, order by period ascending then views descending. -/
def load_product_data (events : List GaEvent) (startS endS : List Nat)
    (tr : TruncUnit) : Except String (List (PyDate × List Nat × Nat)) :=
  match (((events.filter (fun e =>
      e.event_name == strLit "view_item"
      && suffixBetween startS endS e.event_date)).flatMap
    (fun e => e.items.map (fun it => (e.event_date, it.item_name)))).filter
    (fun p => itemNameFilter p.2)).mapM
    (fun p => (parseYmd8 p.1).map (fun dt => (dateTrunc tr dt, p.2))) with
  | none => Except.error "PARSE_DATE failed on event_date"
  | some keys =>
    Except.ok (List.insertionSort prodRowLe
      (keys.dedup.map (fun k => (k.1, k.2, keys.count k))))

/-- C6: rows returned by the search-volume query are sorted ascending by
period, and rows returned by the product-views query are sorted by period
ascending and, within a period, by view count descending (app.py lines
118-119 and 178). -/
theorem query_rows_ordered :
    (∀ events startS endS tr rows,
        load_search_data events startS endS tr = Except.ok rows →
        rows.Pairwise searchRowLe) ∧
    (∀ events startS endS tr rows,
        load_product_data events startS endS tr = Except.ok rows →
        rows.Pairwise prodRowLe) := by
  constructor
  · intro events startS endS tr rows h
    unfold load_search_data at h
    split at h
    · exact absurd h (by simp)
    · rw [Except.ok.injEq] at h
      rw [← h]
      exact List.sorted_insertionSort searchRowLe _
  · intro events startS endS tr rows h
    unfold load_product_data at h
    split at h
    · exact absurd h (by simp)
    · rw [Except.ok.injEq] at h
      rw [← h]
      exact List.sorted_insertionSort prodRowLe _

/-- A small concrete event log used to witness the ordering contract. -/
def witnessEvents : List GaEvent := [
  ⟨strLit "20240105", strLit "view_search_results",
    [(strLit "search_term", strLit "Pulex Bucket red")], []⟩,
  ⟨strLit "20240112", strLit "view_search_results",
    [(strLit "search_term", strLit "pulex bucket")], []⟩,
  ⟨strLit "20240105", strLit "view_item", [],
    [⟨strLit "Pulex Bucket - Red"⟩, ⟨strLit "Pulex Bucket - Blue"⟩]⟩]

/-- Witness for C6 on a three-event log over the January 2024 window. -/
theorem query_rows_ordered_witness :
    List.Pairwise searchRowLe [((⟨2024, 1, 1⟩ : PyDate), 2)] ∧
    List.Pairwise prodRowLe
      [((⟨2024, 1, 1⟩ : PyDate), strLit "Pulex Bucket - Red", 1),
       ((⟨2024, 1, 1⟩ : PyDate), strLit "Pulex Bucket - Blue", 1)] :=
  ⟨query_rows_ordered.1 witnessEvents (strLit "20240101") (strLit "20240131")
      TruncUnit.MONTH _ rfl,
   query_rows_ordered.2 witnessEvents (strLit "20240101") (strLit "20240131")
      TruncUnit.MONTH _ rfl⟩

/-- C10: in the product-views query the phrase filter on the item name is
case-insensitive (`LOWER(item.item_name) LIKE '%pulex bucket%'`), but the
color filter is case-sensitive (`item.item_name LIKE '%Red%'` etc., app.py
lines 169-175): an item passes only if it contains one of the exact
strings Red, Blue, Green, Gray, so a name with only a lowercase color word
is excluded even though it passes the phrase filter. -/
theorem item_color_filter_case_sensitive :
    (∀ name, itemNameFilter name = true →
      (containsSub name (strLit "Red") = true
        ∨ containsSub name (strLit "Blue") = true
        ∨ containsSub name (strLit "Green") = true
        ∨ containsSub name (strLit "Gray") = true)) ∧
    containsSub (lowerCodes (strLit "pulex bucket red"))
      (strLit "pulex bucket") = true ∧
    itemNameFilter (strLit "pulex bucket red") = false ∧
    itemNameFilter (strLit "PULEX BUCKET Red") = true := by
  refine ⟨?_, by decide, by decide, by decide⟩
  intro name h
  unfold itemNameFilter at h
  simp only [Bool.and_eq_true, Bool.or_eq_true] at h
  tauto

/-- Witness for C10: an item name carrying the exact-case color Gray. -/
theorem item_color_filter_case_sensitive_witness :
    containsSub (strLit "Pulex Bucket - Gray") (strLit "Red") = true
      ∨ containsSub (strLit "Pulex Bucket - Gray") (strLit "Blue") = true
      ∨ containsSub (strLit "Pulex Bucket - Gray") (strLit "Green") = true
      ∨ containsSub (strLit "Pulex Bucket - Gray") (strLit "Gray") = true :=
  item_color_filter_case_sensitive.1 (strLit "Pulex Bucket - Gray") (by decide)

/-- UTF-8 decoding of a byte list into code points, `none` on any invalid
sequence (continuation-byte structure, overlong forms, surrogates, out of
range).  Models the decode step of
`pd.read_csv(path, encoding='utf-8-sig')` (app.py line 227), whose failure
raises the exception caught at line 228. -/
def decodeUtf8 : List Nat → Option (List Nat)
  | [] => some []
  | b :: rest =>
    if b < 128 then (decodeUtf8 rest).map (b :: ·)
    else if b < 192 then none
    else if b < 224 then
      match rest with
      | b2 :: rest2 =>
        if 128 ≤ b2 && b2 < 192 then
          let cp := (b - 192) * 64 + (b2 - 128)
          if 128 ≤ cp then (decodeUtf8 rest2).map (cp :: ·) else none
        else none
      | [] => none
    else if b < 240 then
      match rest with
      | b2 :: b3 :: rest3 =>
        if (128 ≤ b2 && b2 < 192) && (128 ≤ b3 && b3 < 192) then
          let cp := (b - 224) * 4096 + (b2 - 128) * 64 + (b3 - 128)
          if 2048 ≤ cp && !(55296 ≤ cp && cp ≤ 57343) then
            (decodeUtf8 rest3).map (cp :: ·)
          else none
        else none
      | _ => none
    else if b < 248 then
      match rest with
      | b2 :: b3 :: b4 :: rest4 =>
        if (128 ≤ b2 && b2 < 192) && (128 ≤ b3 && b3 < 192)
            && (128 ≤ b4 && b4 < 192) then
          let cp := (b - 240) * 262144 + (b2 - 128) * 4096
            + (b3 - 128) * 64 + (b4 - 128)
          if 65536 ≤ cp && cp ≤ 1114111 then
            (decodeUtf8 rest4).map (cp :: ·)
          else none
        else none
      | _ => none
    else none

/-- Drop a leading UTF-8 byte-order mark, the `-sig` part of the
`utf-8-sig` codec. -/
def stripBom : List Nat → List Nat
  | 239 :: 187 :: 191 :: rest => rest
  | l => l

/-- The `utf-8-sig` codec of `pd.read_csv(path, encoding='utf-8-sig')`
(app.py line 227): strip a BOM if present, then strict UTF-8. -/
def decodeUtf8Sig (bytes : List Nat) : Option (List Nat) :=
  decodeUtf8 (stripBom bytes)

/-- The `latin1` codec of the fallback `pd.read_csv(path, encoding='latin1')`
(app.py line 230): every byte is its own code point, so decoding is total
(the permissive single-byte fallback). -/
def decodeLatin1 (bytes : List Nat) : List Nat :=
  bytes

/-- Split a code-point list on a delimiter; always returns at least one
(possibly empty) field. -/
def splitOn (delim : Nat) : List Nat → List (List Nat)
  | [] => [[]]
  | c :: rest =>
    if c == delim then [] :: splitOn delim rest
    else
      match splitOn delim rest with
      | h :: t => (c :: h) :: t
      | [] => [[c]]

/-- A cell of a pandas DataFrame in this pipeline: a raw string, or a date
produced by `pd.to_datetime`. -/
inductive Cell
  | str : List Nat → Cell
  | date : PyDate → Cell
deriving DecidableEq

/-- True on cells that `pd.to_datetime` has turned into a date value. -/
def isDateCell : Cell → Bool
  | Cell.date _ => true
  | Cell.str _ => false

/-- A pandas DataFrame as this pipeline uses it: a header of column names
and a list of rows of cells. -/
structure PdTable where
  header : List (List Nat)
  rows : List (List Cell)
deriving DecidableEq

/-- Parse decoded CSV text: first non-blank line is the header, remaining
non-blank lines are data rows (the `pd.read_csv` tabular model for the
comma-separated, newline-terminated GSC exports). -/
def parseCsvTable (cps : List Nat) : PdTable :=
  match (splitOn 10 cps).filter (fun l => !l.isEmpty) with
  | [] => ⟨[], []⟩
  | h :: t => ⟨splitOn 44 h, t.map (fun r => (splitOn 44 r).map Cell.str)⟩

/-- The code points `pd.read_csv` ends up decoding in `safe_load`: the
primary `utf-8-sig` attempt if it succeeds, otherwise the `latin1`
fallback (app.py lines 226-230). -/
def decodedCodes (bytes : List Nat) : List Nat :=
  match decodeUtf8Sig bytes with
  | some cps => cps
  | none => decodeLatin1 bytes

/-- The table `safe_load` builds from decoded file content: parse the CSV,
strip whitespace from the column names (`df.columns.str.strip()`, line
231), and append the `Source` column holding the property label
(`df['Source'] = label`, line 232). -/
def buildLoadedTable (cps : List Nat) (label : List Nat) : PdTable :=
  let t := parseCsvTable cps
  ⟨t.header.map stripWS ++ [strLit "Source"],
   t.rows.map (fun r => r ++ [Cell.str label])⟩

/-- The filesystem as `safe_load` observes it: a lookup table from paths to
file bytes; `os.path.exists` is successful lookup. -/
def safe_load (fs : List (String × List Nat)) (directory_path fname : String)
    (label : List Nat) : Option PdTable :=
  match fs.lookup (directory_path ++ "/" ++ fname) with
  | some bytes => some (buildLoadedTable (decodedCodes bytes) label)
  | none => none

/-- Apply a fallible operation to every element; any single failure fails
the whole list.  This is the aggregate behavior of `pd.to_datetime` over a
column with `errors='raise'` (the pandas default). -/
def optMapAll {α β : Type} (f : α → Option β) : List α → Option (List β)
  | [] => some []
  | a :: t =>
    match f a, optMapAll f t with
    | some b, some bs => some (b :: bs)
    | _, _ => none

/-- Strict `YYYY-MM-DD` date parsing, the format of the GSC chart export's
`Date` column; models what `pd.to_datetime` accepts there.  Anything else
raises, modelled as `none`. -/
def parseDateIso (l : List Nat) : Option PyDate :=
  match l with
  | [y1, y2, y3, y4, h1, m1, m2, h2, d1, d2] =>
    if h1 == 45 && h2 == 45 then
      match digitVal y1, digitVal y2, digitVal y3, digitVal y4,
          digitVal m1, digitVal m2, digitVal d1, digitVal d2 with
      | some a, some b, some c, some d, some e, some f, some g, some h =>
        let y := a * 1000 + b * 100 + c * 10 + d
        let m := e * 10 + f
        let dd := g * 10 + h
        if 1 ≤ m ∧ m ≤ 12 ∧ 1 ≤ dd ∧ dd ≤ 31 then some ⟨y, m, dd⟩ else none
      | _, _, _, _, _, _, _, _ => none
    else none
  | _ => none

/-- The statement `df_chart['Date'] = pd.to_datetime(df_chart['Date'])`
guarded by `if 'Date' in df_chart.columns` (app.py lines 239-240): if a
`Date` column exists, parse every cell of it into a date; any unparseable
cell raises (pandas default `errors='raise'`), modelled as `Except.error`. -/
def to_datetime_col (t : PdTable) : Except String PdTable :=
  match t.header.indexOf? (strLit "Date") with
  | none => Except.ok t
  | some i =>
    match optMapAll (fun r =>
        match r[i]? with
        | some (Cell.str s) => (parseDateIso s).map (fun d => r.set i (Cell.date d))
        | some (Cell.date _) => some r
        | none => none) t.rows with
    | some rows2 => Except.ok ⟨t.header, rows2⟩
    | none => Except.error "to_datetime: unparseable date in Date column"

/-- The loader `load_gsc_data(directory_path, label)` (app.py lines
219-247).  It returns the Python dict `data`: the key `chart` is inserted
only when `Chart.csv` loaded, while `queries` and `pages` are always
inserted, possibly mapped to `None`.  An exception escaping the body
(only the `pd.to_datetime` call can raise here) is `Except.error`. -/
def load_gsc_data (fs : List (String × List Nat)) (directory_path : String)
    (label : List Nat) : Except String (List (String × Option PdTable)) :=
  match safe_load fs directory_path "Chart.csv" label with
  | some t =>
    match to_datetime_col t with
    | Except.ok t2 =>
      Except.ok [("chart", some t2),
        ("queries", safe_load fs directory_path "Queries.csv" label),
        ("pages", safe_load fs directory_path "Pages.csv" label)]
    | Except.error e => Except.error e
  | none =>
    Except.ok [("queries", safe_load fs directory_path "Queries.csv" label),
      ("pages", safe_load fs directory_path "Pages.csv" label)]

/-- Python `dict.get(k)` as used at app.py lines 257-267: `None` both when
the key is absent and when it is present but mapped to `None`. -/
def dictGet (d : List (String × Option PdTable)) (k : String) : Option PdTable :=
  match d.lookup k with
  | some v => v
  | none => none

/-- The initializer `pd.DataFrame()` (app.py lines 256, 261, 266). -/
def emptyDF : PdTable :=
  ⟨[], []⟩

/-- The pandas `df.empty` test used by the display guards (app.py lines
271, 289, 314): a frame is empty when it has no rows or no columns. -/
def dfEmpty (t : PdTable) : Bool :=
  t.rows.isEmpty || t.header.isEmpty

/-- Row-wise `pd.concat([a, b], ignore_index=True)` for the identically
shaped tables the two property loads produce (app.py lines 258, 263,
268). -/
def pdConcat (a b : PdTable) : PdTable :=
  ⟨a.header, a.rows ++ b.rows⟩

/-- The guarded merge of one dataset (app.py lines 256-268): start from
`pd.DataFrame()` and concatenate only when both properties' frames are
`not None`. -/
def mergeDataset (a b : Option PdTable) : PdTable :=
  match a, b with
  | some x, some y => pdConcat x y
  | _, _ => emptyDF

/-- The merged chart table `df_chart_all` (app.py lines 256-258). -/
def df_chart_all (dd dc : List (String × Option PdTable)) : PdTable :=
  mergeDataset (dictGet dd "chart") (dictGet dc "chart")

/-- The merged queries table `df_queries_all` (app.py lines 261-263). -/
def df_queries_all (dd dc : List (String × Option PdTable)) : PdTable :=
  mergeDataset (dictGet dd "queries") (dictGet dc "queries")

/-- The merged pages table `df_pages_all` (app.py lines 266-268). -/
def df_pages_all (dd dc : List (String × Option PdTable)) : PdTable :=
  mergeDataset (dictGet dd "pages") (dictGet dc "pages")

theorem mergeDataset_none {a b : Option PdTable} (h : a = none ∨ b = none) :
    mergeDataset a b = emptyDF := by
  cases a <;> cases b <;> simp [mergeDataset] <;> rcases h with h | h <;> simp at h

theorem mergeDataset_isSome {a b : Option PdTable}
    (h : dfEmpty (mergeDataset a b) = false) :
    a.isSome = true ∧ b.isSome = true := by
  cases a <;> cases b <;> simp [mergeDataset, dfEmpty, emptyDF] at h ⊢

/-- C2: a merged dataset (chart, queries or pages) can be non-empty only
when both properties loaded it; if either side is `None`, the merged frame
is the empty `pd.DataFrame()` — never a partial one-sided union (app.py
lines 255-268). -/
theorem merge_all_or_nothing (dd dc : List (String × Option PdTable)) :
    ((dictGet dd "chart" = none ∨ dictGet dc "chart" = none) →
      df_chart_all dd dc = emptyDF) ∧
    (dfEmpty (df_chart_all dd dc) = false →
      (dictGet dd "chart").isSome = true ∧ (dictGet dc "chart").isSome = true) ∧
    ((dictGet dd "queries" = none ∨ dictGet dc "queries" = none) →
      df_queries_all dd dc = emptyDF) ∧
    (dfEmpty (df_queries_all dd dc) = false →
      (dictGet dd "queries").isSome = true ∧ (dictGet dc "queries").isSome = true) ∧
    ((dictGet dd "pages" = none ∨ dictGet dc "pages" = none) →
      df_pages_all dd dc = emptyDF) ∧
    (dfEmpty (df_pages_all dd dc) = false →
      (dictGet dd "pages").isSome = true ∧ (dictGet dc "pages").isSome = true) :=
  ⟨fun h => mergeDataset_none h, fun h => mergeDataset_isSome h,
   fun h => mergeDataset_none h, fun h => mergeDataset_isSome h,
   fun h => mergeDataset_none h, fun h => mergeDataset_isSome h⟩

/-- Witness for C2: property A has a non-empty chart, property B has none;
the merged chart table is empty. -/
theorem merge_all_or_nothing_witness :
    df_chart_all
      [("chart", some (⟨[strLit "Date"], [[Cell.str (strLit "2024-01-05")]]⟩ : PdTable))]
      [("queries", (none : Option PdTable))]
      = emptyDF :=
  (merge_all_or_nothing
      [("chart", some (⟨[strLit "Date"], [[Cell.str (strLit "2024-01-05")]]⟩ : PdTable))]
      [("queries", (none : Option PdTable))]).1 (Or.inr rfl)

theorem gscNoneDict_get (k : String) :
    dictGet [("queries", (none : Option PdTable)), ("pages", none)] k = none := by
  unfold dictGet
  cases hq : (k == ("queries" : String)) <;> cases hp : (k == ("pages" : String)) <;>
    simp [List.lookup, hq, hp]

/-- C3 counterexample: with an entirely absent export directory,
`load_gsc_data` does not return a dict with all three fields absent — the
keys `queries` and `pages` are present, mapped to `None` (app.py lines
244-245 assign them unconditionally). -/
theorem missing_dir_fields_counterexample :
    load_gsc_data [] "Bucket-Collection" (strLit "Collection")
      = Except.ok [("queries", (none : Option PdTable)), ("pages", none)] ∧
    (([("queries", (none : Option PdTable)), ("pages", none)].lookup
        "queries").isSome = true) :=
  ⟨rfl, rfl⟩

/-- C3 amended: when every file of the property directory is absent,
`load_gsc_data` raises nothing and returns a dict with no `chart` key and
with `queries` and `pages` present but `None`; every `dict.get` lookup on
the result is `None`, and merging it with anything yields the empty frame
for all three datasets (app.py lines 219-268). -/
theorem missing_dir_empty_result (fs : List (String × List Nat)) (dir : String)
    (label : List Nat)
    (h1 : fs.lookup (dir ++ "/" ++ "Chart.csv") = none)
    (h2 : fs.lookup (dir ++ "/" ++ "Queries.csv") = none)
    (h3 : fs.lookup (dir ++ "/" ++ "Pages.csv") = none) :
    load_gsc_data fs dir label
      = Except.ok [("queries", (none : Option PdTable)), ("pages", none)] ∧
    (∀ k, dictGet [("queries", (none : Option PdTable)), ("pages", none)] k = none) ∧
    (∀ other,
      df_chart_all [("queries", (none : Option PdTable)), ("pages", none)] other = emptyDF ∧
      df_queries_all [("queries", (none : Option PdTable)), ("pages", none)] other = emptyDF ∧
      df_pages_all [("queries", (none : Option PdTable)), ("pages", none)] other = emptyDF ∧
      df_chart_all other [("queries", (none : Option PdTable)), ("pages", none)] = emptyDF ∧
      df_queries_all other [("queries", (none : Option PdTable)), ("pages", none)] = emptyDF ∧
      df_pages_all other [("queries", (none : Option PdTable)), ("pages", none)] = emptyDF) := by
  have hs1 : safe_load fs dir "Chart.csv" label = none := by
    unfold safe_load; rw [h1]
  have hs2 : safe_load fs dir "Queries.csv" label = none := by
    unfold safe_load; rw [h2]
  have hs3 : safe_load fs dir "Pages.csv" label = none := by
    unfold safe_load; rw [h3]
  refine ⟨?_, gscNoneDict_get, ?_⟩
  · unfold load_gsc_data
    rw [hs1, hs2, hs3]
  · intro other
    exact ⟨mergeDataset_none (Or.inl (gscNoneDict_get "chart")),
      mergeDataset_none (Or.inl (gscNoneDict_get "queries")),
      mergeDataset_none (Or.inl (gscNoneDict_get "pages")),
      mergeDataset_none (Or.inr (gscNoneDict_get "chart")),
      mergeDataset_none (Or.inr (gscNoneDict_get "queries")),
      mergeDataset_none (Or.inr (gscNoneDict_get "pages"))⟩

/-- Witness for C3 (amended) on the empty filesystem. -/
theorem missing_dir_empty_result_witness :
    load_gsc_data [] "Bucket-Collection" (strLit "Collection")
      = Except.ok [("queries", (none : Option PdTable)), ("pages", none)] ∧
    df_chart_all [("queries", (none : Option PdTable)), ("pages", none)]
      [("queries", (none : Option PdTable)), ("pages", none)] = emptyDF :=
  ⟨(missing_dir_empty_result [] "Bucket-Collection" (strLit "Collection")
      rfl rfl rfl).1,
   ((missing_dir_empty_result [] "Bucket-Collection" (strLit "Collection")
      rfl rfl rfl).2.2 _).1⟩

theorem optMapAll_mem {α β : Type} {f : α → Option β} :
    ∀ {l : List α} {l2 : List β}, optMapAll f l = some l2 →
      ∀ y ∈ l2, ∃ x ∈ l, f x = some y := by
  intro l
  induction l with
  | nil =>
    intro l2 h y hy
    simp [optMapAll] at h
    subst h
    simp at hy
  | cons a t ih =>
    intro l2 h y hy
    unfold optMapAll at h
    cases hfa : f a with
    | none => rw [hfa] at h; simp at h
    | some b =>
      rw [hfa] at h
      cases hmt : optMapAll f t with
      | none => rw [hmt] at h; simp at h
      | some bs =>
        rw [hmt] at h
        simp at h
        subst h
        rcases List.mem_cons.mp hy with hyb | hybs
        · exact ⟨a, List.mem_cons_self _ _, by rw [hfa, hyb]⟩
        · obtain ⟨x, hx, hfx⟩ := ih hmt y hybs
          exact ⟨x, List.mem_cons_of_mem _ hx, hfx⟩

theorem to_datetime_col_some_idx (t : PdTable) (i : Nat)
    (hi : t.header.indexOf? (strLit "Date") = some i) :
    to_datetime_col t =
      match optMapAll (fun r =>
          match r[i]? with
          | some (Cell.str s) => (parseDateIso s).map (fun d => r.set i (Cell.date d))
          | some (Cell.date _) => some r
          | none => none) t.rows with
      | some rows2 => Except.ok ⟨t.header, rows2⟩
      | none => Except.error "to_datetime: unparseable date in Date column" := by
  unfold to_datetime_col
  rw [hi]

theorem load_gsc_data_chart_some (fs : List (String × List Nat)) (dir : String)
    (label : List Nat) (tbl : PdTable)
    (hload : safe_load fs dir "Chart.csv" label = some tbl) :
    load_gsc_data fs dir label =
      match to_datetime_col tbl with
      | Except.ok t2 =>
        Except.ok [("chart", some t2),
          ("queries", safe_load fs dir "Queries.csv" label),
          ("pages", safe_load fs dir "Pages.csv" label)]
      | Except.error e => Except.error e := by
  unfold load_gsc_data
  rw [hload]

/-- C5 amended: when `Chart.csv` loads, any unparseable value in its `Date`
column makes `pd.to_datetime` raise and the exception escapes
`load_gsc_data`, failing the whole chart (and property) load — rows are
not individually skipped; when every `Date` value parses, the load
succeeds and each row's `Date` cell holds a date value (app.py lines
236-241). -/
theorem chart_date_parse_strict (fs : List (String × List Nat)) (dir : String)
    (label : List Nat) (tbl : PdTable)
    (hload : safe_load fs dir "Chart.csv" label = some tbl) :
    (∀ e, to_datetime_col tbl = Except.error e →
      load_gsc_data fs dir label = Except.error e) ∧
    (∀ tbl2, to_datetime_col tbl = Except.ok tbl2 →
      load_gsc_data fs dir label = Except.ok
        [("chart", some tbl2),
         ("queries", safe_load fs dir "Queries.csv" label),
         ("pages", safe_load fs dir "Pages.csv" label)] ∧
      ∀ i, tbl.header.indexOf? (strLit "Date") = some i →
        ∀ r ∈ tbl2.rows, (r[i]?).any isDateCell = true) := by
  constructor
  · intro e he
    rw [load_gsc_data_chart_some fs dir label tbl hload, he]
  · intro tbl2 ht
    constructor
    · rw [load_gsc_data_chart_some fs dir label tbl hload, ht]
    · intro i hi r hr
      rw [to_datetime_col_some_idx tbl i hi] at ht
      split at ht
      · rw [Except.ok.injEq] at ht
        rename_i rows2 hm
        rw [← ht] at hr
        obtain ⟨x, hx, hfx⟩ := optMapAll_mem hm r hr
        split at hfx
        · rename_i s hxi
          rw [Option.map_eq_some'] at hfx
          obtain ⟨d, hps, hset⟩ := hfx
          have hlen : i < x.length := by
            by_contra hge
            push_neg at hge
            rw [List.getElem?_eq_none hge] at hxi
            simp at hxi
          rw [← hset, List.getElem?_set_self hlen]
          simp [isDateCell]
        · rename_i d hxi
          simp only [Option.some.injEq] at hfx
          rw [← hfx, hxi]
          simp [Option.any, isDateCell]
        · simp at hfx
      · simp at ht

/-- The export filesystem of the C5 counterexample: a chart whose second
data row has a malformed date. -/
def badChartFs : List (String × List Nat) :=
  [("Pulex-Bucket-Direct/Chart.csv",
    strLit "Date,Clicks,Impressions\n2024-01-05,3,50\nnot-a-date,1,10\n")]

/-- C5 counterexample: one malformed date value in the chart export fails
the whole `load_gsc_data` call with an exception, not just that row's
parse — even though the other row's date is perfectly parseable. -/
theorem chart_bad_date_counterexample :
    load_gsc_data badChartFs "Pulex-Bucket-Direct" (strLit "Direct")
      = Except.error "to_datetime: unparseable date in Date column" ∧
    parseDateIso (strLit "2024-01-05") = some ⟨2024, 1, 5⟩ ∧
    parseDateIso (strLit "not-a-date") = none := by
  refine ⟨rfl, by decide, by decide⟩

/-- The export filesystem of the C5 witness: a chart whose dates all
parse. -/
def goodChartFs : List (String × List Nat) :=
  [("Pulex-Bucket-Direct/Chart.csv",
    strLit "Date,Clicks\n2024-01-05,3\n2024-01-06,1\n")]

/-- Witness for C5 (amended): a fully parseable chart loads, and its first
row's `Date` cell is a date value. -/
theorem chart_date_parse_strict_witness :
    load_gsc_data goodChartFs "Pulex-Bucket-Direct" (strLit "Direct")
      = Except.ok
        [("chart", some (⟨[strLit "Date", strLit "Clicks", strLit "Source"],
          [[Cell.date ⟨2024, 1, 5⟩, Cell.str (strLit "3"), Cell.str (strLit "Direct")],
           [Cell.date ⟨2024, 1, 6⟩, Cell.str (strLit "1"), Cell.str (strLit "Direct")]]⟩
          : PdTable)),
         ("queries", none), ("pages", none)] ∧
    (([Cell.date (⟨2024, 1, 5⟩ : PyDate), Cell.str (strLit "3"),
        Cell.str (strLit "Direct")][0]?).any isDateCell = true) := by
  have h := (chart_date_parse_strict goodChartFs "Pulex-Bucket-Direct"
    (strLit "Direct") _ rfl).2 _ rfl
  exact ⟨h.1, h.2 0 rfl _ (by decide)⟩

/-- A row of the merged `Queries`/`Pages` table: the ranked-entity cell, the
numeric `Clicks` and `Impressions` columns as `pd.read_csv` parses them,
the `CTR` and `Position` cells, and the `Source` tag added by the loader. -/
structure GscRow where
  entity : List Nat
  clicks : Nat
  impressions : Nat
  ctr : List Nat
  position : List Nat
  source : List Nat
deriving DecidableEq

/-- The filter `df[df['Source'] == src]` (app.py lines 296, 306, 321, 331). -/
def filterSource (tbl : List GscRow) (src : List Nat) : List GscRow :=
  tbl.filter (fun r => r.source == src)

/-- The ascending argsort order numpy computes inside pandas `sort_values`:
by `Clicks`, with the original position as tie-break.  For the frames at
hand (under 16 rows) numpy's introsort is a single stable insertion pass,
which the index tie-break encodes exactly. -/
def ascClicksIdx (a b : Nat × GscRow) : Prop :=
  a.2.clicks < b.2.clicks ∨ (a.2.clicks = b.2.clicks ∧ a.1 ≤ b.1)

instance : DecidableRel ascClicksIdx := fun a b => by
  unfold ascClicksIdx; infer_instance

instance : IsTotal (Nat × GscRow) ascClicksIdx := by
  constructor
  intro a b
  unfold ascClicksIdx
  omega

instance : IsTrans (Nat × GscRow) ascClicksIdx := by
  constructor
  intro a b c hab hbc
  unfold ascClicksIdx at hab hbc ⊢
  omega

/-- `df.sort_values(by='Clicks', ascending=False)` (app.py lines 297, 307,
322, 332): pandas `nargsort` computes the ascending argsort of the column
and, because `ascending=False`, reverses that indexer
(pandas/core/sorting.py); the kind is the default non-stable `quicksort`.
The rows are paired with their original positions.  `sort_values` returns
a new frame; the input frame is not mutated. -/
def pandasSortDescClicksIdx (rows : List GscRow) : List (Nat × GscRow) :=
  (List.insertionSort ascClicksIdx rows.enum).reverse

/-- The displayed ranking with original row positions attached:
`filter by Source, sort_values(by='Clicks', ascending=False), head(10)`
(app.py lines 293-311 for queries and 318-336 for pages; both tables go
through this same expression shape). -/
def displayTopIdx (tbl : List GscRow) (src : List Nat) : List (Nat × GscRow) :=
  (pandasSortDescClicksIdx (filterSource tbl src)).take 10

/-- The displayed top-10 rows themselves. -/
def displayTopRows (tbl : List GscRow) (src : List Nat) : List GscRow :=
  (displayTopIdx tbl src).map Prod.snd

/-- The ranking as the spec's words state it: a stable descending sort by
clicks — ties broken by original row order — then the first ten rows. -/
def specDescStable (a b : Nat × GscRow) : Prop :=
  b.2.clicks < a.2.clicks ∨ (a.2.clicks = b.2.clicks ∧ a.1 ≤ b.1)

instance : DecidableRel specDescStable := fun a b => by
  unfold specDescStable; infer_instance

/-- The spec-stated ranking (see `specDescStable`). -/
def specStableTopRows (tbl : List GscRow) (src : List Nat) : List GscRow :=
  (((filterSource tbl src).enum.insertionSort specDescStable).map Prod.snd).take 10

/-- Two queries rows tied at 5 clicks, both from the Direct property. -/
def tieRowA : GscRow :=
  ⟨strLit "query-a", 5, 100, strLit "5%", strLit "1.2", strLit "Direct"⟩

/-- Second tied row (originally after `tieRowA`). -/
def tieRowB : GscRow :=
  ⟨strLit "query-b", 5, 80, strLit "4%", strLit "2.0", strLit "Direct"⟩

/-- C4 counterexample: on two rows tied by clicks, the code's ranking
(reversed ascending argsort) lists the originally-later row first, while
the claimed stable ranking keeps original order — the two disagree. -/
theorem topn_stable_tie_counterexample :
    displayTopRows [tieRowA, tieRowB] (strLit "Direct") = [tieRowB, tieRowA] ∧
    specStableTopRows [tieRowA, tieRowB] (strLit "Direct") = [tieRowA, tieRowB] ∧
    displayTopRows [tieRowA, tieRowB] (strLit "Direct")
      ≠ specStableTopRows [tieRowA, tieRowB] (strLit "Direct") := by
  refine ⟨by decide, by decide, by decide⟩

/-- The order in which the displayed ranking actually lists rows: clicks
descending, ties in reverse original row order. -/
def descRevTies (a b : Nat × GscRow) : Prop :=
  b.2.clicks < a.2.clicks ∨ (b.2.clicks = a.2.clicks ∧ b.1 ≤ a.1)

/-- C4 amended: the displayed table is a pure view — filter the merged
table by source tag, sort descending by clicks, take the first 10, without
mutating the merged table — but ties are broken in reverse original row
order (pandas reverses a small-array-stable ascending argsort for
`ascending=False`), not in original row order. -/
theorem topn_ranking (tbl : List GscRow) (src : List Nat) :
    List.Pairwise descRevTies (displayTopIdx tbl src) ∧
    (displayTopRows tbl src).length = min 10 (filterSource tbl src).length ∧
    ∀ r ∈ displayTopRows tbl src, r ∈ tbl ∧ r.source = src := by
  refine ⟨?_, ?_, ?_⟩
  · have hs : List.Pairwise descRevTies
        (pandasSortDescClicksIdx (filterSource tbl src)) := by
      unfold pandasSortDescClicksIdx
      refine List.pairwise_reverse.mpr ?_
      exact List.sorted_insertionSort ascClicksIdx _
    exact List.Pairwise.sublist (List.take_sublist _ _) hs
  · have hlen := (List.perm_insertionSort ascClicksIdx
      (filterSource tbl src).enum).length_eq
    simp [displayTopRows, displayTopIdx, pandasSortDescClicksIdx,
      List.length_take, hlen]
  · intro r hr
    obtain ⟨p, hp, hpr⟩ := List.mem_map.mp hr
    have hp1 : p ∈ pandasSortDescClicksIdx (filterSource tbl src) :=
      (List.take_sublist _ _).mem hp
    have hp2 : p ∈ List.insertionSort ascClicksIdx (filterSource tbl src).enum := by
      unfold pandasSortDescClicksIdx at hp1
      exact List.mem_reverse.mp hp1
    have hp3 : p ∈ (filterSource tbl src).enum :=
      (List.perm_insertionSort ascClicksIdx _).mem_iff.mp hp2
    have hp4 : p.2 ∈ filterSource tbl src := List.snd_mem_of_mem_enum hp3
    have hp5 := List.mem_filter.mp hp4
    rw [← hpr]
    exact ⟨hp5.1, by simpa using hp5.2⟩

/-- Witness for C4 (amended) on the two tied rows. -/
theorem topn_ranking_witness :
    List.Pairwise descRevTies (displayTopIdx [tieRowA, tieRowB] (strLit "Direct")) ∧
    (displayTopRows [tieRowA, tieRowB] (strLit "Direct")).length
      = min 10 (filterSource [tieRowA, tieRowB] (strLit "Direct")).length ∧
    (tieRowB ∈ [tieRowA, tieRowB] ∧ tieRowB.source = strLit "Direct") :=
  ⟨(topn_ranking [tieRowA, tieRowB] (strLit "Direct")).1,
   (topn_ranking [tieRowA, tieRowB] (strLit "Direct")).2.1,
   (topn_ranking [tieRowA, tieRowB] (strLit "Direct")).2.2 tieRowB (by decide)⟩

/-- What one dashboard section ends up showing. -/
inductive SectionOut (ρ : Type)
  | view : ρ → SectionOut ρ
  | noData : SectionOut ρ
  | errorBox : String → SectionOut ρ
deriving DecidableEq

/-- The body of one fetch-and-render section: call the loader — re-raising
its exception, this is the `load_search_data(...)` / `load_product_data(...)`
call inside the `try` — then branch on `df.empty` into a chart or a
no-data warning (app.py lines 127-146 and 186-204). -/
def sectionBody {α : Type} (res : Except String (List α)) :
    Except String (SectionOut (List α)) := do
  let df ← res
  pure (if df.isEmpty then SectionOut.noData else SectionOut.view df)

/-- Python `try: body except Exception as e: st.error(...)` (app.py lines
126-149 and 185-207): a raised exception becomes an error message box and
nothing propagates further. -/
def tryExceptBlock {ρ : Type} (body : Except String (SectionOut ρ)) :
    SectionOut ρ :=
  match body with
  | Except.ok s => s
  | Except.error e => SectionOut.errorBox e

/-- The two fetch sections of the script, run in order (app.py lines
125-207); the surrounding `Except` is the script run itself, where an
uncaught exception would abort the render. -/
def runFetchSections (r1 : Except String (List (PyDate × Nat)))
    (r2 : Except String (List (PyDate × List Nat × Nat))) :
    Except String (SectionOut (List (PyDate × Nat))
      × SectionOut (List (PyDate × List Nat × Nat))) := do
  let s1 := tryExceptBlock (sectionBody r1)
  let s2 := tryExceptBlock (sectionBody r2)
  pure (s1, s2)

/-- C7: a query-execution error from either warehouse fetch is caught at
its section boundary and surfaced as a non-fatal error box with no data
rendered for that section, never as a crash of the script run; and one
section's outcome is entirely independent of the other fetch's result. -/
theorem fetch_errors_isolated (r1 : Except String (List (PyDate × Nat)))
    (r2 : Except String (List (PyDate × List Nat × Nat))) :
    (runFetchSections r1 r2).isOk = true ∧
    (∀ e, r1 = Except.error e →
      runFetchSections r1 r2 = Except.ok
        (SectionOut.errorBox e, tryExceptBlock (sectionBody r2))) ∧
    (∀ e, r2 = Except.error e →
      runFetchSections r1 r2 = Except.ok
        (tryExceptBlock (sectionBody r1), SectionOut.errorBox e)) ∧
    (∀ r1a r1b : Except String (List (PyDate × Nat)),
      (runFetchSections r1a r2).map Prod.snd
        = (runFetchSections r1b r2).map Prod.snd) ∧
    (∀ r2a r2b : Except String (List (PyDate × List Nat × Nat)),
      (runFetchSections r1 r2a).map Prod.fst
        = (runFetchSections r1 r2b).map Prod.fst) := by
  refine ⟨rfl, ?_, ?_, ?_, ?_⟩
  · intro e he; rw [he]; rfl
  · intro e he; rw [he]; rfl
  · intro r1a r1b; rfl
  · intro r2a r2b; rfl

/-- Witness for C7: the search fetch fails with a quota error while the
product fetch succeeds; the first section shows the error box and the
second still renders its rows. -/
theorem fetch_errors_isolated_witness :
    runFetchSections (Except.error "403 Quota exceeded")
        (Except.ok [((⟨2024, 1, 1⟩ : PyDate), strLit "Pulex Bucket - Red", 3)])
      = Except.ok (SectionOut.errorBox "403 Quota exceeded",
          SectionOut.view [((⟨2024, 1, 1⟩ : PyDate), strLit "Pulex Bucket - Red", 3)]) :=
  (fetch_errors_isolated (Except.error "403 Quota exceeded")
      (Except.ok [((⟨2024, 1, 1⟩ : PyDate), strLit "Pulex Bucket - Red", 3)])).2.1
    "403 Quota exceeded" rfl

theorem dropWhile_head_false {p : Nat → Bool} :
    ∀ {l : List Nat} {c : Nat}, (l.dropWhile p).head? = some c → p c = false := by
  intro l
  induction l with
  | nil => intro c h; simp [List.dropWhile] at h
  | cons a t ih =>
    intro c h
    rw [List.dropWhile_cons] at h
    by_cases hpa : p a = true
    · rw [if_pos hpa] at h
      exact ih h
    · rw [if_neg hpa] at h
      simp only [List.head?_cons, Option.some.injEq] at h
      rw [← h]
      exact Bool.not_eq_true _ ▸ hpa

theorem dropWhile_getLast_of_ne_nil {p : Nat → Bool} :
    ∀ {l : List Nat}, l.dropWhile p ≠ [] →
      (l.dropWhile p).getLast? = l.getLast? := by
  intro l
  induction l with
  | nil => intro h; simp [List.dropWhile] at h
  | cons a t ih =>
    intro h
    rw [List.dropWhile_cons] at h ⊢
    by_cases hpa : p a = true
    · rw [if_pos hpa] at h ⊢
      rw [ih h]
      have ht : t ≠ [] := by
        intro he
        rw [he] at h
        simp [List.dropWhile] at h
      cases t with
      | nil => exact absurd rfl ht
      | cons b t2 => rw [List.getLast?_cons_cons]
    · rw [if_neg hpa]

theorem noEdgeWS_stripWS (l : List Nat) : noEdgeWS (stripWS l) = true := by
  unfold noEdgeWS stripWS
  rw [List.head?_reverse, List.getLast?_reverse]
  have h2 : (((l.dropWhile isWS).reverse.dropWhile isWS).head?.all
      fun c => !isWS c) = true := by
    cases hh : ((l.dropWhile isWS).reverse.dropWhile isWS).head? with
    | none => rfl
    | some c =>
      have := dropWhile_head_false hh
      simp [Option.all, this]
  have h1 : (((l.dropWhile isWS).reverse.dropWhile isWS).getLast?.all
      fun c => !isWS c) = true := by
    by_cases hn : (l.dropWhile isWS).reverse.dropWhile isWS = []
    · rw [hn]; rfl
    · rw [dropWhile_getLast_of_ne_nil hn, List.getLast?_reverse]
      cases hh : (l.dropWhile isWS).head? with
      | none => rfl
      | some c =>
        have := dropWhile_head_false hh
        simp [Option.all, this]
  rw [h1, h2, Bool.and_self]

/-- C8: whenever the export file exists, `safe_load` succeeds — the
primary `utf-8-sig` decode is attempted first and a decode failure falls
back to the total single-byte `latin1` decode (app.py lines 226-230) —
and every column name of the loaded table is free of surrounding
whitespace (line 231). -/
theorem export_load_encoding_fallback (fs : List (String × List Nat))
    (dir fname : String) (label : List Nat) (bytes : List Nat)
    (h : fs.lookup (dir ++ "/" ++ fname) = some bytes) :
    safe_load fs dir fname label
      = some (buildLoadedTable (decodedCodes bytes) label) ∧
    (decodeUtf8Sig bytes = none → decodedCodes bytes = decodeLatin1 bytes) ∧
    (∀ nm ∈ (buildLoadedTable (decodedCodes bytes) label).header,
      noEdgeWS nm = true) := by
  refine ⟨?_, ?_, ?_⟩
  · unfold safe_load
    rw [h]
  · intro hnone
    unfold decodedCodes
    rw [hnone]
  · intro nm hnm
    simp only [buildLoadedTable, List.mem_append, List.mem_map,
      List.mem_singleton] at hnm
    rcases hnm with ⟨x, hx, hxe⟩ | hnm
    · rw [← hxe]
      exact noEdgeWS_stripWS x
    · rw [hnm]
      decide

/-- The C8 witness file content: a `Queries.csv` whose header has trailing
whitespace and whose data holds the byte 0xE9 — valid latin1, invalid
UTF-8. -/
def latin1QBytes : List Nat :=
  strLit "Top queries ,Clicks\ncaf" ++ [233] ++ strLit ",5\n"

/-- The C8 witness filesystem. -/
def latin1Fs : List (String × List Nat) :=
  [("Bucket-Collection/Queries.csv", latin1QBytes)]

/-- Witness for C8: the non-UTF8 single-byte `Queries.csv` loads
successfully via the latin1 fallback, with headers trimmed and the
`Source` column appended. -/
theorem export_load_encoding_fallback_witness :
    safe_load latin1Fs "Bucket-Collection" "Queries.csv" (strLit "Collection")
      = some (buildLoadedTable (decodedCodes latin1QBytes) (strLit "Collection")) ∧
    decodeUtf8Sig latin1QBytes = none ∧
    decodedCodes latin1QBytes = decodeLatin1 latin1QBytes ∧
    (buildLoadedTable (decodedCodes latin1QBytes) (strLit "Collection")).header
      = [strLit "Top queries", strLit "Clicks", strLit "Source"] := by
  have h := export_load_encoding_fallback latin1Fs "Bucket-Collection"
    "Queries.csv" (strLit "Collection") latin1QBytes rfl
  exact ⟨h.1, by decide, h.2.1 (by decide), by decide⟩

/-- Modelled from the spec: the result cache of `st.cache_data(ttl=3600)`
(spec section 4.5) — the cache implementation lives in the streamlit
library, which is not part of src/; `src/app.py` only applies the
decorator with `ttl=3600` (lines 104, 157, 219).  Entries map a parameter
key to a value and the timestamp at which it was produced. -/
structure CacheState (κ α : Type) where
  entries : List (κ × α × Nat)

/-- Modelled from the spec: a cache probe at time `now` — an entry hits
while `now - producedAt < ttl`. -/
def cacheLookup {κ α : Type} [DecidableEq κ] (ttl now : Nat) (k : κ)
    (s : CacheState κ α) : Option α :=
  match s.entries.find? (fun e => decide (e.1 = k) && decide (now - e.2.2 < ttl)) with
  | some e => some e.2.1
  | none => none

/-- Modelled from the spec: one call of a cached loader.  On a hit the
cached value is returned and the producer is not invoked; on a miss the
producer runs and its value is stored with the current timestamp.  The
returned flag records whether the producer was invoked. -/
def getOrCompute {κ α : Type} [DecidableEq κ] (ttl now : Nat) (k : κ)
    (producer : Unit → α) (s : CacheState κ α) : α × CacheState κ α × Bool :=
  match cacheLookup ttl now k s with
  | some v => (v, s, false)
  | none => (producer (), ⟨(k, producer (), now) :: s.entries⟩, true)

/-- C9: calling a ttl-3600 cached loader twice with the same key, the
second call within the ttl window, returns the same value both times and
invokes the producer exactly once (on the first call only). -/
theorem cached_loader_idempotent {κ α : Type} [DecidableEq κ] (k : κ)
    (producer : Unit → α) (s0 : CacheState κ α) (t1 t2 : Nat)
    (hmiss : cacheLookup 3600 t1 k s0 = none)
    (h12 : t1 ≤ t2) (httl : t2 - t1 < 3600) :
    (getOrCompute 3600 t1 k producer s0).1
      = (getOrCompute 3600 t2 k producer
          (getOrCompute 3600 t1 k producer s0).2.1).1 ∧
    (getOrCompute 3600 t1 k producer s0).2.2 = true ∧
    (getOrCompute 3600 t2 k producer
        (getOrCompute 3600 t1 k producer s0).2.1).2.2 = false ∧
    (getOrCompute 3600 t1 k producer s0).1 = producer () := by
  have h1 : getOrCompute 3600 t1 k producer s0
      = (producer (), ⟨(k, producer (), t1) :: s0.entries⟩, true) := by
    unfold getOrCompute
    rw [hmiss]
  have hl2 : cacheLookup 3600 t2 k
      (⟨(k, producer (), t1) :: s0.entries⟩ : CacheState κ α)
      = some (producer ()) := by
    unfold cacheLookup
    rw [List.find?_cons_of_pos]
    simp [httl]
  have h2 : getOrCompute 3600 t2 k producer
      (⟨(k, producer (), t1) :: s0.entries⟩ : CacheState κ α)
      = (producer (), ⟨(k, producer (), t1) :: s0.entries⟩, false) := by
    unfold getOrCompute
    rw [hl2]
  rw [h1]
  exact ⟨by rw [h2], rfl, by rw [h2], rfl⟩

/-- Witness for C9: the cached search-volume loader, keyed by
`(start, end, time_trunc)` as in `load_search_data(start, end, time_trunc)`,
called twice from a cold cache at times 0 and 1000. -/
theorem cached_loader_idempotent_witness :
    (getOrCompute 3600 0 (strLit "20240101", strLit "20240131", TruncUnit.MONTH)
        (fun _ => load_search_data witnessEvents (strLit "20240101")
          (strLit "20240131") TruncUnit.MONTH)
        (⟨[]⟩ : CacheState (List Nat × List Nat × TruncUnit)
          (Except String (List (PyDate × Nat))))).1
      = (getOrCompute 3600 1000 (strLit "20240101", strLit "20240131", TruncUnit.MONTH)
          (fun _ => load_search_data witnessEvents (strLit "20240101")
            (strLit "20240131") TruncUnit.MONTH)
          (getOrCompute 3600 0 (strLit "20240101", strLit "20240131", TruncUnit.MONTH)
            (fun _ => load_search_data witnessEvents (strLit "20240101")
              (strLit "20240131") TruncUnit.MONTH)
            (⟨[]⟩ : CacheState (List Nat × List Nat × TruncUnit)
              (Except String (List (PyDate × Nat))))).2.1).1 ∧
    (getOrCompute 3600 0 (strLit "20240101", strLit "20240131", TruncUnit.MONTH)
        (fun _ => load_search_data witnessEvents (strLit "20240101")
          (strLit "20240131") TruncUnit.MONTH)
        (⟨[]⟩ : CacheState (List Nat × List Nat × TruncUnit)
          (Except String (List (PyDate × Nat))))).2.2 = true ∧
    (getOrCompute 3600 1000 (strLit "20240101", strLit "20240131", TruncUnit.MONTH)
        (fun _ => load_search_data witnessEvents (strLit "20240101")
          (strLit "20240131") TruncUnit.MONTH)
        (getOrCompute 3600 0 (strLit "20240101", strLit "20240131", TruncUnit.MONTH)
          (fun _ => load_search_data witnessEvents (strLit "20240101")
            (strLit "20240131") TruncUnit.MONTH)
          (⟨[]⟩ : CacheState (List Nat × List Nat × TruncUnit)
            (Except String (List (PyDate × Nat))))).2.1).2.2 = false :=
  have h := cached_loader_idempotent
    (strLit "20240101", strLit "20240131", TruncUnit.MONTH)
    (fun _ => load_search_data witnessEvents (strLit "20240101")
      (strLit "20240131") TruncUnit.MONTH)
    (⟨[]⟩ : CacheState (List Nat × List Nat × TruncUnit)
      (Except String (List (PyDate × Nat))))
    0 1000 rfl (by omega) (by omega)
  ⟨h.1, h.2.1, h.2.2.1⟩
